import Mathlib

/-!
# s3quota: the quota watcher of an S3 hosted static website

A shallow embedding of `main.go`.  The three AWS services, the session
constructor and the clock are the outside world of the program: they are
a record `World` of what each of them answers, together with the log of
the calls made so far and the public access block the S3 service stores.
Every Go function becomes a function that takes the world and gives back
its Go result and the world after its calls.

Go values are embedded as follows.

* `error`: `Option GoError`, where `none` is `nil`.
* a pointer `*T` that may be `nil`: `Option T`.
* a slice `[]T`: `Option (List T)`, where `none` is the `nil` slice and
  `some []` is an allocated slice of length zero (the two differ under
  `!= nil`).
* `float64`: `Float64`, the finite values as exact rationals, together
  with the two infinities and NaN; only comparison and `%.3e` printing are
  used by the program.
* a run-time panic (nil dereference, index out of range): `Outcome.panicked`.

The output of `GetMetricData` reaches the program through the decoder of the
AWS SDK only; `decodeMetricData` gives the Go value it builds for an answer of
the service.
-/

namespace S3Quota

/-! ## Go values -/

/-- A non-nil Go `error` value, identified by its message. -/
abbrev GoError := String

/-- Result of running a Go function body: it returns, or it panics. -/
inductive Outcome (α : Type) where
  | ret (a : α)
  | panicked (msg : String)
deriving DecidableEq, Repr

/-- The message of the panic raised by `*p` when `p` is nil. -/
def nilDereference : String := "invalid memory address or nil pointer dereference"

/-- The message of the panic raised by `s[0]` when `len(s)` is zero. -/
def indexOutOfRange : String := "index out of range [0] with length 0"

/-- Go `float64` values: finite ones as exact rationals, infinities, NaN. -/
inductive Float64 where
  | nan
  | negInf
  | finite (q : ℚ)
  | posInf
deriving DecidableEq

/-- Go `a >= b` on `float64`: false whenever an operand is NaN. -/
def Float64.ge : Float64 → Float64 → Bool
  | .nan, _ => false
  | _, .nan => false
  | .posInf, _ => true
  | _, .negInf => true
  | .negInf, _ => false
  | _, .posInf => false
  | .finite a, .finite b => decide (b ≤ a)

/-- Go `a < b` on `float64`: false whenever an operand is NaN. -/
def Float64.lt : Float64 → Float64 → Bool
  | .nan, _ => false
  | _, .nan => false
  | .posInf, _ => false
  | _, .negInf => false
  | .negInf, _ => true
  | _, .posInf => true
  | .finite a, .finite b => decide (a < b)

/-! ## `fmt.Sprintf("%.3e", x)` -/

/-- Left-pad the decimal numeral of `n` with zeros to at least `k` digits. -/
def padNat (k n : Nat) : String :=
  String.mk (List.replicate (k - (Nat.repr n).length) '0') ++ Nat.repr n

/-- Round the quotient `a / b` to the nearest integer, ties to even. -/
def roundHalfEven (a b : Nat) : Nat :=
  let d := a / b
  let r := a % b
  if 2 * r < b then d
  else if b < 2 * r then d + 1
  else if d % 2 = 0 then d else d + 1

/-- The decimal exponent of the positive rational `num / den`: the integer `e`
with `10 ^ e ≤ num / den < 10 ^ (e + 1)`. -/
def decimalExponent (num den : Nat) : Int :=
  if den ≤ num then
    ((Nat.repr (num / den)).length : Int) - 1
  else
    match (List.range ((Nat.repr den).length + 1)).find? (fun k => den ≤ 10 ^ k * num) with
    | some k => - (k : Int)
    | none => 0

/-- The text `d.ddde±xx` of the positive rational `num / den`: one digit, three
decimals correctly rounded, and an exponent of at least two digits. -/
def formatPositiveE3 (num den : Nat) : String :=
  let e := decimalExponent num den
  let m := if e ≤ 3 then roundHalfEven (num * 10 ^ (3 - e).toNat) den
           else roundHalfEven num (den * 10 ^ (e - 3).toNat)
  let (m, e) := if 10000 ≤ m then (m / 10, e + 1) else (m, e)
  Nat.repr (m / 1000) ++ "." ++ padNat 3 (m % 1000) ++ "e"
    ++ (if e < 0 then "-" else "+") ++ padNat 2 e.natAbs

/-- Go `fmt.Sprintf("%.3e", x)` (the same text as `"%0.3e"`, whose zero flag pads
nothing when no width is given). -/
def sprintf_e3 : Float64 → String
  | .nan => "NaN"
  | .posInf => "+Inf"
  | .negInf => "-Inf"
  | .finite q =>
    if q = 0 then "0.000e+00"
    else (if q < 0 then "-" else "") ++ formatPositiveE3 q.num.natAbs q.den

/-! ## Configuration constants -/

def website_bucket_name : String := "www.example.com"
def region : String := "us-west-2"
def monthly_byte_quota : Float64 := .finite 100000000000
def recipient : String := "me@myemailprovider.com"
def sender : String := "quotawatcher@example.com"

/-! ## The data exchanged with the services -/

/-- Go `events.APIGatewayProxyResponse`, the two fields the program sets. -/
structure APIGatewayProxyResponse where
  StatusCode : Int
  Body : String
deriving DecidableEq, Repr

/-- Go `s3.PublicAccessBlockConfiguration`: four `*bool` fields. -/
structure PublicAccessBlockConfiguration where
  BlockPublicAcls : Option Bool
  BlockPublicPolicy : Option Bool
  IgnorePublicAcls : Option Bool
  RestrictPublicBuckets : Option Bool
deriving DecidableEq, Repr

/-- Go `s3.GetPublicAccessBlockOutput`: a pointer to the configuration. -/
structure GetPublicAccessBlockOutput where
  PublicAccessBlockConfiguration : Option PublicAccessBlockConfiguration
deriving DecidableEq, Repr

/-- Go `s3.PutPublicAccessBlockInput`. -/
structure PutPublicAccessBlockInput where
  Bucket : String
  PublicAccessBlockConfiguration : Option PublicAccessBlockConfiguration
deriving DecidableEq, Repr

/-- Go `cloudwatch.MetricDataResult`: the field `Values []*float64`. -/
structure MetricDataResult where
  Values : Option (List (Option Float64))
deriving DecidableEq

/-- Go `cloudwatch.GetMetricDataOutput`: the field
`MetricDataResults []*MetricDataResult`. -/
structure GetMetricDataOutput where
  MetricDataResults : Option (List (Option MetricDataResult))
deriving DecidableEq

/-- One result of a `GetMetricData` answer as CloudWatch sends it: the element
`Values`, absent or a list of members that may be empty. -/
structure MetricDataResultAnswer where
  Values : Option (List Float64)
deriving DecidableEq

/-- A `GetMetricData` answer as CloudWatch sends it: the element
`MetricDataResults`, absent or a list of members that may be empty. -/
structure MetricDataAnswer where
  MetricDataResults : Option (List MetricDataResultAnswer)
deriving DecidableEq

/-- The slice the decoder of the AWS SDK builds for a list element of an answer:
an absent element leaves the field nil, the slice is allocated only when the
element has at least one member, and every member becomes a non-nil pointer. -/
def decodeList {α β : Type} (f : α → β) : Option (List α) → Option (List (Option β))
  | none => none
  | some [] => none
  | some (x :: xs) => some ((x :: xs).map (fun a => some (f a)))

/-- The `cloudwatch.MetricDataResult` decoded from one result of an answer. -/
def decodeMetricDataResult (r : MetricDataResultAnswer) : MetricDataResult :=
  ⟨decodeList id r.Values⟩

/-- The `cloudwatch.GetMetricDataOutput` that `svc.GetMetricData` hands to the
program for an answer of the service. -/
def decodeMetricData (a : MetricDataAnswer) : GetMetricDataOutput :=
  ⟨decodeList decodeMetricDataResult a.MetricDataResults⟩

/-- Go `ses.SendEmailInput`: destination, sender, subject and text body. -/
structure SendEmailInput where
  ToAddresses : List String
  Source : String
  Subject : String
  Body : String
deriving DecidableEq, Repr

/-- One request sent to the outside world. -/
inductive Call where
  | NewSession (region : String)
  | GetPublicAccessBlock (bucket : String)
  | GetMetricData (bucket : String)
  | PutPublicAccessBlock (input : PutPublicAccessBlockInput)
  | SendEmail (input : SendEmailInput)
deriving DecidableEq, Repr

/-- A logged request together with the error it came back with. -/
structure Event where
  call : Call
  err : Option GoError
deriving DecidableEq, Repr

/-- The outside world of one run: what each collaborator answers, the clock,
the public access block stored by S3, and the log of the calls made so far. -/
structure World where
  /-- The error of `session.NewSession`. -/
  sessionErr : Option GoError
  /-- The configuration S3 stores for the bucket (`none`: absent). -/
  accessBlock : Option PublicAccessBlockConfiguration
  /-- The error of `GetPublicAccessBlock`. -/
  getAccessBlockErr : Option GoError
  /-- The error of `PutPublicAccessBlock`, for each input. -/
  putAccessBlockErr : PutPublicAccessBlockInput → Option GoError
  /-- The output of `GetMetricData`. -/
  metricData : GetMetricDataOutput
  /-- The error of `GetMetricData`. -/
  metricErr : Option GoError
  /-- The error of `SendEmail`, for each input. -/
  sendEmailErr : SendEmailInput → Option GoError
  /-- The value of `time.Now().Day()`. -/
  day : Nat
  /-- The value of `time.Now().Format(time.RFC822Z)`. -/
  now : String
  /-- The calls made so far, oldest first. -/
  trace : List Event

/-- Append one event to the log. -/
def World.log (w : World) (c : Call) (err : Option GoError) : World :=
  { w with trace := w.trace ++ [⟨c, err⟩] }

/-- Replace the configuration stored by S3. -/
def World.store (w : World) (cfg : Option PublicAccessBlockConfiguration) : World :=
  { w with accessBlock := cfg }

/-! ## The collaborators -/

/-- Go `session.NewSession`. -/
def NewSession (w : World) (region : String) : Option GoError × World :=
  (w.sessionErr, w.log (.NewSession region) w.sessionErr)

/-- Go `svc.GetPublicAccessBlock`: the stored configuration and the error. -/
def GetPublicAccessBlock (w : World) (bucket : String) :
    (GetPublicAccessBlockOutput × Option GoError) × World :=
  ((⟨w.accessBlock⟩, w.getAccessBlockErr),
    w.log (.GetPublicAccessBlock bucket) w.getAccessBlockErr)

/-- Go `svc.PutPublicAccessBlock`: a write that is accepted replaces the stored
configuration by the one of the input, a rejected write leaves it. -/
def PutPublicAccessBlock (w : World) (input : PutPublicAccessBlockInput) :
    Option GoError × World :=
  match w.putAccessBlockErr input with
  | none =>
    (none, (w.log (.PutPublicAccessBlock input) none).store input.PublicAccessBlockConfiguration)
  | some err => (some err, w.log (.PutPublicAccessBlock input) (some err))

/-- Go `svc.GetMetricData`. -/
def GetMetricData (w : World) (bucket : String) :
    (GetMetricDataOutput × Option GoError) × World :=
  ((w.metricData, w.metricErr), w.log (.GetMetricData bucket) w.metricErr)

/-- Go `c.SendEmail`. -/
def SendEmail (w : World) (input : SendEmailInput) : Option GoError × World :=
  (w.sendEmailErr input, w.log (.SendEmail input) (w.sendEmailErr input))

/-! ## The program -/

/-- Go `confirmation`: the response and the error handed to the caller. -/
def confirmation (err : Option GoError) : APIGatewayProxyResponse × Option GoError :=
  let body := if err ≠ none then "abnormal termination" else "normal termination"
  ({ StatusCode := 200, Body := body }, err)

/-- Go `bytes_served_this_month`. -/
def bytes_served_this_month (w : World) (bucket_name : String) :
    Outcome (Float64 × Option GoError) × World :=
  match GetMetricData w bucket_name with
  | ((_, some err), w) => (.ret (.finite 0, some err), w)
  | ((data, none), w) =>
    match data.MetricDataResults with
    | none => (.ret (.finite 0, none), w)
    | some [] => (.panicked indexOutOfRange, w)
    | some (none :: _) => (.panicked nilDereference, w)
    | some (some first :: _) =>
      match first.Values with
      | none => (.ret (.finite 0, none), w)
      | some [] => (.panicked indexOutOfRange, w)
      | some (none :: _) => (.panicked nilDereference, w)
      | some (some v :: _) => (.ret (v, none), w)

/-- Go `*p` for a `*bool`. -/
def derefBool : Option Bool → Outcome Bool
  | none => .panicked nilDereference
  | some b => .ret b

/-- Go `offline || *p`: the pointer is read only when `offline` is false. -/
def orDeref (offline : Bool) (p : Option Bool) : Outcome Bool :=
  if offline then .ret true else derefBool p

/-- Go `site_is_online`. -/
def site_is_online (w : World) (bucket_name : String) :
    Outcome (Bool × Option GoError) × World :=
  match GetPublicAccessBlock w bucket_name with
  | ((_, some err), w) => (.ret (false, some err), w)
  | ((output, none), w) =>
    match output.PublicAccessBlockConfiguration with
    | none => (.panicked nilDereference, w)
    | some cfg =>
      match derefBool cfg.BlockPublicAcls with
      | .panicked m => (.panicked m, w)
      | .ret offline =>
      match orDeref offline cfg.BlockPublicPolicy with
      | .panicked m => (.panicked m, w)
      | .ret offline =>
      match orDeref offline cfg.IgnorePublicAcls with
      | .panicked m => (.panicked m, w)
      | .ret offline =>
      match orDeref offline cfg.RestrictPublicBuckets with
      | .panicked m => (.panicked m, w)
      | .ret offline => (.ret (!offline, none), w)

/-- The configuration written by `failed_taking_site_offline`. -/
def allBlocked : PublicAccessBlockConfiguration :=
  ⟨some true, some true, some true, some true⟩

/-- The configuration written by `failed_putting_site_online`. -/
def noneBlocked : PublicAccessBlockConfiguration :=
  ⟨some false, some false, some false, some false⟩

/-- Go `failed_taking_site_offline`. -/
def failed_taking_site_offline (w : World) (bucket_name : String) :
    Option GoError × World :=
  let config : PublicAccessBlockConfiguration :=
    { BlockPublicAcls := some true
      BlockPublicPolicy := some true
      IgnorePublicAcls := some true
      RestrictPublicBuckets := some true }
  PutPublicAccessBlock w ⟨bucket_name, some config⟩

/-- Go `failed_putting_site_online`. -/
def failed_putting_site_online (w : World) (bucket_name : String) :
    Option GoError × World :=
  let config : PublicAccessBlockConfiguration :=
    { BlockPublicAcls := some false
      BlockPublicPolicy := some false
      IgnorePublicAcls := some false
      RestrictPublicBuckets := some false }
  PutPublicAccessBlock w ⟨bucket_name, some config⟩

/-- The `ses.SendEmailInput` composed by `email_is_unsendable`: subject and body
are built by the two branches of the source, `now` is the formatted clock. -/
def sendEmailInput (now bucket_name : String) (bytes : Float64) (online : Bool) :
    SendEmailInput :=
  let subject := "Website http://" ++ bucket_name
  let body := subject
  let (subject, body) :=
    if online then
      let subject := subject ++ " is online"
      let body := body ++ " was put back on line as of \n\n   " ++ now
      let body := body ++ "\n\nbecause its quota of\n\n   " ++ sprintf_e3 monthly_byte_quota
      let body := body ++ " bytes per month\n\nexceeds the current count of\n\n   "
        ++ sprintf_e3 bytes
      let body := body ++ " bytes\n\nserved this month.\n"
      (subject, body)
    else
      let subject := subject ++ " is offline"
      let body := body ++ " was taken off line as of \n\n   " ++ now
      let body := body ++ "\n\nhaving exceeded its quota of\n\n   "
        ++ sprintf_e3 monthly_byte_quota
      let body := body ++ " bytes per month\n\nby serving a total of\n\n   "
        ++ sprintf_e3 bytes
      let body := body ++ " bytes\n\nthis month.\n"
      (subject, body)
  { ToAddresses := [recipient]
    Source := sender
    Subject := subject
    Body := body }

/-- Go `email_is_unsendable`. -/
def email_is_unsendable (w : World) (bucket_name : String) (bytes : Float64)
    (online : Bool) : Option GoError × World :=
  SendEmail w (sendEmailInput w.now bucket_name bytes online)

/-- Go `handler`.  The request argument is not read by the program. -/
def handler (w : World) :
    Outcome (APIGatewayProxyResponse × Option GoError) × World :=
  match NewSession w region with
  | (some err, w) => (.ret (confirmation (some err)), w)
  | (none, w) =>
  match site_is_online w website_bucket_name with
  | (.panicked m, w) => (.panicked m, w)
  | (.ret (_, some err), w) => (.ret (confirmation (some err)), w)
  | (.ret (online, none), w) =>
  if (!online) && (w.day != 1) then
    (.ret (confirmation none), w)
  else
  match bytes_served_this_month w website_bucket_name with
  | (.panicked m, w) => (.panicked m, w)
  | (.ret (_, some err), w) => (.ret (confirmation (some err)), w)
  | (.ret (bytes, none), w) =>
  let (err, w) :=
    if bytes.ge monthly_byte_quota && online then
      match failed_taking_site_offline w website_bucket_name with
      | (none, w) => email_is_unsendable w website_bucket_name bytes false
      | (some err, w) => (some err, w)
    else (none, w)
  let (err, w) :=
    if bytes.lt monthly_byte_quota && !online then
      match failed_putting_site_online w website_bucket_name with
      | (none, w) => email_is_unsendable w website_bucket_name bytes true
      | (some err, w) => (some err, w)
    else (err, w)
  (.ret (confirmation err), w)

/-! ## Observing a run -/

/-- The events a run added to the log: those of `w1` after the ones of `w`. -/
def callsOf (w w1 : World) : List Event := w1.trace.drop w.trace.length

/-- A call to the metering service. -/
def Call.isMetering : Call → Bool
  | .GetMetricData _ => true
  | _ => false

/-- A write to the access-control service. -/
def Call.isMutation : Call → Bool
  | .PutPublicAccessBlock _ => true
  | _ => false

/-- A call to the mail service. -/
def Call.isNotification : Call → Bool
  | .SendEmail _ => true
  | _ => false

/-- A write that sets all four flags: TakeOffline. -/
def Call.isTakeOffline : Call → Bool
  | .PutPublicAccessBlock i => decide (i.PublicAccessBlockConfiguration = some allBlocked)
  | _ => false

/-- A write that clears all four flags: BringOnline. -/
def Call.isBringOnline : Call → Bool
  | .PutPublicAccessBlock i => decide (i.PublicAccessBlockConfiguration = some noneBlocked)
  | _ => false

/-- The input of the write made by `failed_taking_site_offline` in `handler`. -/
def takeOfflineInput : PutPublicAccessBlockInput := ⟨website_bucket_name, some allBlocked⟩

/-- The input of the write made by `failed_putting_site_online` in `handler`. -/
def bringOnlineInput : PutPublicAccessBlockInput := ⟨website_bucket_name, some noneBlocked⟩

/-- No event of the list but the last one carries an error. -/
def errorOnlyLast : List Event → Bool
  | [] => true
  | [_] => true
  | e :: rest => e.err.isNone && errorOnlyLast rest

/-! ## The stages of `handler` -/

/-- The world in which the metering query has been answered. -/
def afterMetering (w : World) (e : Option GoError) : World :=
  ((w.log (.NewSession region) none).log
    (.GetPublicAccessBlock website_bucket_name) none).log
    (.GetMetricData website_bucket_name) e

/-- The two conditionals of `handler` that follow the metering query, on the
world `w` reached there, the state `s` read by `site_is_online` and the usage `u`. -/
def decision (w : World) (s : Bool) (u : Float64) : Option GoError × World :=
  let r := if u.ge monthly_byte_quota && s then
      match failed_taking_site_offline w website_bucket_name with
      | (none, w) => email_is_unsendable w website_bucket_name u false
      | (some err, w) => (some err, w)
    else (none, w)
  if u.lt monthly_byte_quota && !s then
    match failed_putting_site_online r.2 website_bucket_name with
    | (none, w) => email_is_unsendable w website_bucket_name u true
    | (some err, w) => (some err, w)
  else r

/-! ## Concrete worlds -/

/-- The over-quota scenario: the site is on line, 120e9 bytes were served, every
collaborator succeeds, on the 15th of the month. -/
def overQuotaWorld : World :=
  { sessionErr := none
    accessBlock := some noneBlocked
    getAccessBlockErr := none
    putAccessBlockErr := fun _ => none
    metricData := ⟨some [some ⟨some [some (.finite 120000000000)]⟩]⟩
    metricErr := none
    sendEmailErr := fun _ => none
    day := 15
    now := "15 Nov 26 10:00 +0000"
    trace := [] }

/-- The over-quota scenario in which S3 rejects every write. -/
def writeRejectedWorld : World :=
  { overQuotaWorld with putAccessBlockErr := fun _ => some "AccessDenied" }

/-- The site is off line and 50e9 bytes were served, on the 15th of the month. -/
def underQuotaOfflineWorld : World :=
  { overQuotaWorld with
    accessBlock := some allBlocked
    metricData := ⟨some [some ⟨some [some (.finite 50000000000)]⟩]⟩ }

/-- The site is off line and 50e9 bytes were served, on the first of the month. -/
def firstDayWorld : World := { underQuotaOfflineWorld with day := 1 }

/-- The world of `firstDayWorld` in which S3 rejects every write. -/
def firstDayRejectedWorld : World :=
  { firstDayWorld with putAccessBlockErr := fun _ => some "AccessDenied" }

/-- The site is on line and 50e9 bytes were served. -/
def underQuotaOnlineWorld : World :=
  { underQuotaOfflineWorld with accessBlock := some noneBlocked }

/-- The access-control query fails. -/
def accessQueryFailedWorld : World :=
  { overQuotaWorld with getAccessBlockErr := some "AccessQueryFailed" }

/-- The access-control query reports no error and no configuration. -/
def absentConfigurationWorld : World := { overQuotaWorld with accessBlock := none }

/-- The access-control query reports the first flag set and the other three absent. -/
def partialConfigurationWorld : World :=
  { overQuotaWorld with accessBlock := some ⟨some true, none, none, none⟩ }

/-- The answer of the metering service for a site not visited this month: one
result, with an empty list of values. -/
def unvisitedAnswer : MetricDataAnswer := ⟨some [⟨some []⟩]⟩

/-- The site is on line and the metering service answers `unvisitedAnswer`. -/
def unvisitedWorld : World :=
  { overQuotaWorld with metricData := decodeMetricData unvisitedAnswer }

/-! # Theorems -/

/-! ## The log and the stored configuration under `log` and `store` -/

theorem log_trace (w : World) (c : Call) (e : Option GoError) :
    (w.log c e).trace = w.trace ++ [⟨c, e⟩] := rfl

@[simp]
theorem log_sessionErr (w : World) (c : Call) (e : Option GoError) :
    (w.log c e).sessionErr = w.sessionErr := rfl

@[simp]
theorem log_accessBlock (w : World) (c : Call) (e : Option GoError) :
    (w.log c e).accessBlock = w.accessBlock := rfl

@[simp]
theorem log_getAccessBlockErr (w : World) (c : Call) (e : Option GoError) :
    (w.log c e).getAccessBlockErr = w.getAccessBlockErr := rfl

@[simp]
theorem log_putAccessBlockErr (w : World) (c : Call) (e : Option GoError) :
    (w.log c e).putAccessBlockErr = w.putAccessBlockErr := rfl

@[simp]
theorem log_metricData (w : World) (c : Call) (e : Option GoError) :
    (w.log c e).metricData = w.metricData := rfl

@[simp]
theorem log_metricErr (w : World) (c : Call) (e : Option GoError) :
    (w.log c e).metricErr = w.metricErr := rfl

@[simp]
theorem log_sendEmailErr (w : World) (c : Call) (e : Option GoError) :
    (w.log c e).sendEmailErr = w.sendEmailErr := rfl

@[simp]
theorem log_day (w : World) (c : Call) (e : Option GoError) :
    (w.log c e).day = w.day := rfl

@[simp]
theorem log_now (w : World) (c : Call) (e : Option GoError) :
    (w.log c e).now = w.now := rfl

@[simp]
theorem store_trace (w : World) (cfg : Option PublicAccessBlockConfiguration) :
    (w.store cfg).trace = w.trace := rfl

@[simp]
theorem store_accessBlock (w : World) (cfg : Option PublicAccessBlockConfiguration) :
    (w.store cfg).accessBlock = cfg := rfl

@[simp]
theorem store_putAccessBlockErr (w : World)
    (cfg : Option PublicAccessBlockConfiguration) :
    (w.store cfg).putAccessBlockErr = w.putAccessBlockErr := rfl

@[simp]
theorem store_sendEmailErr (w : World) (cfg : Option PublicAccessBlockConfiguration) :
    (w.store cfg).sendEmailErr = w.sendEmailErr := rfl

@[simp]
theorem store_now (w : World) (cfg : Option PublicAccessBlockConfiguration) :
    (w.store cfg).now = w.now := rfl

/-! ## The two readers: their result depends on the answers only -/

theorem site_is_online_snd (w : World) (b : String) :
    (site_is_online w b).2 = w.log (.GetPublicAccessBlock b) w.getAccessBlockErr := by
  unfold site_is_online GetPublicAccessBlock
  cases w.getAccessBlockErr <;> simp only []
  cases w.accessBlock <;> simp only []
  split <;> try rfl
  split <;> try rfl
  split <;> try rfl
  split <;> rfl

theorem site_is_online_fst_congr (w w1 : World) (b : String)
    (h1 : w1.accessBlock = w.accessBlock)
    (h2 : w1.getAccessBlockErr = w.getAccessBlockErr) :
    (site_is_online w1 b).1 = (site_is_online w b).1 := by
  unfold site_is_online GetPublicAccessBlock
  rw [h1, h2]
  cases w.getAccessBlockErr <;> simp only []
  cases w.accessBlock <;> simp only []
  split <;> try rfl
  split <;> try rfl
  split <;> try rfl
  split <;> rfl

theorem site_is_online_eq (w w1 : World) (b : String)
    (r : Outcome (Bool × Option GoError))
    (h1 : w1.accessBlock = w.accessBlock)
    (h2 : w1.getAccessBlockErr = w.getAccessBlockErr)
    (h : (site_is_online w b).1 = r) :
    site_is_online w1 b = (r, w1.log (.GetPublicAccessBlock b) w.getAccessBlockErr) := by
  rw [← h, ← site_is_online_fst_congr w w1 b h1 h2, ← h2, ← site_is_online_snd]

theorem site_is_online_err (w : World) (b : String) (s : Bool) (e : Option GoError)
    (h : (site_is_online w b).1 = .ret (s, e)) : w.getAccessBlockErr = e := by
  unfold site_is_online GetPublicAccessBlock at h
  cases he : w.getAccessBlockErr with
  | some e1 => rw [he] at h; simp at h; rw [h.2]
  | none =>
    rw [he] at h
    simp only [] at h
    revert h
    cases w.accessBlock <;> simp only []
    · intro h; simp at h
    · split
      · intro h; simp at h
      · split
        · intro h; simp at h
        · split
          · intro h; simp at h
          · split
            · intro h; simp at h
            · intro h; simp at h; rw [h.2]

theorem site_is_online_no_error_of_panic (w : World) (b m : String)
    (h : (site_is_online w b).1 = .panicked m) : w.getAccessBlockErr = none := by
  unfold site_is_online GetPublicAccessBlock at h
  cases he : w.getAccessBlockErr with
  | some e1 => rw [he] at h; simp at h
  | none => rfl

theorem bytes_snd (w : World) (b : String) :
    (bytes_served_this_month w b).2 = w.log (.GetMetricData b) w.metricErr := by
  unfold bytes_served_this_month GetMetricData
  cases w.metricErr <;> simp only []
  split <;> try rfl
  split <;> rfl

theorem bytes_fst_congr (w w1 : World) (b : String)
    (h1 : w1.metricData = w.metricData) (h2 : w1.metricErr = w.metricErr) :
    (bytes_served_this_month w1 b).1 = (bytes_served_this_month w b).1 := by
  unfold bytes_served_this_month GetMetricData
  rw [h1, h2]
  cases w.metricErr <;> simp only []
  split <;> try rfl
  split <;> rfl

theorem bytes_eq (w w1 : World) (b : String) (r : Outcome (Float64 × Option GoError))
    (h1 : w1.metricData = w.metricData) (h2 : w1.metricErr = w.metricErr)
    (h : (bytes_served_this_month w b).1 = r) :
    bytes_served_this_month w1 b = (r, w1.log (.GetMetricData b) w.metricErr) := by
  rw [← h, ← bytes_fst_congr w w1 b h1 h2, ← h2, ← bytes_snd]

theorem bytes_err (w : World) (b : String) (u : Float64) (e : Option GoError)
    (h : (bytes_served_this_month w b).1 = .ret (u, e)) : w.metricErr = e := by
  unfold bytes_served_this_month GetMetricData at h
  cases he : w.metricErr with
  | some e1 => rw [he] at h; simp at h; rw [h.2]
  | none =>
    rw [he] at h
    simp only [] at h
    revert h
    split
    · intro h; simp at h; rw [h.2]
    · intro h; simp at h
    · intro h; simp at h
    · split
      · intro h; simp at h; rw [h.2]
      · intro h; simp at h
      · intro h; simp at h
      · intro h; simp at h; rw [h.2]

theorem bytes_no_error_of_panic (w : World) (b m : String)
    (h : (bytes_served_this_month w b).1 = .panicked m) : w.metricErr = none := by
  unfold bytes_served_this_month GetMetricData at h
  cases he : w.metricErr with
  | some e1 => rw [he] at h; simp at h
  | none => rfl

/-! ## The paths of `handler` -/

theorem handler_session_error (w : World) (e : GoError) (h : w.sessionErr = some e) :
    handler w = (.ret (confirmation (some e)), w.log (.NewSession region) (some e)) := by
  simp [handler, NewSession, h]

theorem handler_site_panic (w : World) (m : String) (hsess : w.sessionErr = none)
    (h : (site_is_online w website_bucket_name).1 = .panicked m) :
    handler w = (.panicked m, (w.log (.NewSession region) none).log
      (.GetPublicAccessBlock website_bucket_name) none) := by
  have hg := site_is_online_no_error_of_panic w _ _ h
  have hs := site_is_online_eq w (w.log (.NewSession region) none) website_bucket_name _
    rfl rfl h
  simp [handler, NewSession, hsess, hs, hg]

theorem handler_site_error (w : World) (s : Bool) (e : GoError) (hsess : w.sessionErr = none)
    (h : (site_is_online w website_bucket_name).1 = .ret (s, some e)) :
    handler w = (.ret (confirmation (some e)), (w.log (.NewSession region) none).log
      (.GetPublicAccessBlock website_bucket_name) (some e)) := by
  have hg := site_is_online_err w _ _ _ h
  have hs := site_is_online_eq w (w.log (.NewSession region) none) website_bucket_name _
    rfl rfl h
  simp [handler, NewSession, hsess, hs, hg]

theorem handler_short (w : World) (hsess : w.sessionErr = none)
    (h : (site_is_online w website_bucket_name).1 = .ret (false, none))
    (hday : w.day ≠ 1) :
    handler w = (.ret (confirmation none), (w.log (.NewSession region) none).log
      (.GetPublicAccessBlock website_bucket_name) none) := by
  have hg := site_is_online_err w _ _ _ h
  have hs := site_is_online_eq w (w.log (.NewSession region) none) website_bucket_name _
    rfl rfl h
  simp [handler, NewSession, hsess, hs, hg, hday]

theorem handler_bytes_panic (w : World) (s : Bool) (m : String) (hsess : w.sessionErr = none)
    (h : (site_is_online w website_bucket_name).1 = .ret (s, none))
    (hgo : s = true ∨ w.day = 1)
    (hb : (bytes_served_this_month w website_bucket_name).1 = .panicked m) :
    handler w = (.panicked m, afterMetering w none) := by
  have hg := site_is_online_err w _ _ _ h
  have hs := site_is_online_eq w (w.log (.NewSession region) none) website_bucket_name _
    rfl rfl h
  have hm := bytes_no_error_of_panic w _ _ hb
  have hbb := bytes_eq w ((w.log (.NewSession region) none).log
    (.GetPublicAccessBlock website_bucket_name) none) website_bucket_name _ rfl rfl hb
  rcases hgo with hgo | hgo <;>
    simp [handler, NewSession, hsess, hs, hg, hgo, hbb, hm, afterMetering]

theorem handler_bytes_error (w : World) (s : Bool) (u : Float64) (e : GoError)
    (hsess : w.sessionErr = none)
    (h : (site_is_online w website_bucket_name).1 = .ret (s, none))
    (hgo : s = true ∨ w.day = 1)
    (hb : (bytes_served_this_month w website_bucket_name).1 = .ret (u, some e)) :
    handler w = (.ret (confirmation (some e)), afterMetering w (some e)) := by
  have hg := site_is_online_err w _ _ _ h
  have hs := site_is_online_eq w (w.log (.NewSession region) none) website_bucket_name _
    rfl rfl h
  have hm := bytes_err w _ _ _ hb
  have hbb := bytes_eq w ((w.log (.NewSession region) none).log
    (.GetPublicAccessBlock website_bucket_name) none) website_bucket_name _ rfl rfl hb
  rcases hgo with hgo | hgo <;>
    simp [handler, NewSession, hsess, hs, hg, hgo, hbb, hm, afterMetering]

theorem handler_decides (w : World) (s : Bool) (u : Float64)
    (hsess : w.sessionErr = none)
    (h : (site_is_online w website_bucket_name).1 = .ret (s, none))
    (hgo : s = true ∨ w.day = 1)
    (hb : (bytes_served_this_month w website_bucket_name).1 = .ret (u, none)) :
    handler w = (.ret (confirmation (decision (afterMetering w none) s u).1),
      (decision (afterMetering w none) s u).2) := by
  have hg := site_is_online_err w _ _ _ h
  have hs := site_is_online_eq w (w.log (.NewSession region) none) website_bucket_name _
    rfl rfl h
  have hm := bytes_err w _ _ _ hb
  have hbb := bytes_eq w ((w.log (.NewSession region) none).log
    (.GetPublicAccessBlock website_bucket_name) none) website_bucket_name _ rfl rfl hb
  rcases hgo with hgo | hgo <;>
    simp [handler, NewSession, hsess, hs, hg, hgo, hbb, hm, afterMetering, decision]

/-! ## The decision -/

theorem decision_take_offline (w : World) (u : Float64)
    (hge : u.ge monthly_byte_quota = true) :
    decision w true u =
      match w.putAccessBlockErr takeOfflineInput with
      | none =>
        (w.sendEmailErr (sendEmailInput w.now website_bucket_name u false),
          ((w.log (.PutPublicAccessBlock takeOfflineInput) none).store (some allBlocked)).log
            (.SendEmail (sendEmailInput w.now website_bucket_name u false))
            (w.sendEmailErr (sendEmailInput w.now website_bucket_name u false)))
      | some e => (some e, w.log (.PutPublicAccessBlock takeOfflineInput) (some e)) := by
  have hf : failed_taking_site_offline w website_bucket_name =
      PutPublicAccessBlock w takeOfflineInput := rfl
  unfold decision
  rw [hf]
  unfold PutPublicAccessBlock
  cases w.putAccessBlockErr takeOfflineInput <;>
    simp [hge, email_is_unsendable, SendEmail, takeOfflineInput]

theorem decision_bring_online (w : World) (u : Float64)
    (hlt : u.lt monthly_byte_quota = true) :
    decision w false u =
      match w.putAccessBlockErr bringOnlineInput with
      | none =>
        (w.sendEmailErr (sendEmailInput w.now website_bucket_name u true),
          ((w.log (.PutPublicAccessBlock bringOnlineInput) none).store (some noneBlocked)).log
            (.SendEmail (sendEmailInput w.now website_bucket_name u true))
            (w.sendEmailErr (sendEmailInput w.now website_bucket_name u true)))
      | some e => (some e, w.log (.PutPublicAccessBlock bringOnlineInput) (some e)) := by
  have hf : failed_putting_site_online w website_bucket_name =
      PutPublicAccessBlock w bringOnlineInput := rfl
  unfold decision
  simp only [Bool.and_false, Bool.false_eq_true, if_false, hlt, Bool.not_false, Bool.and_self,
    if_true]
  rw [hf]
  unfold PutPublicAccessBlock
  cases w.putAccessBlockErr bringOnlineInput <;>
    simp [email_is_unsendable, SendEmail, bringOnlineInput]

theorem ge_lt_exclusive (u v : Float64) (h : u.ge v = true) : u.lt v = false := by
  cases u <;> cases v <;> simp_all [Float64.ge, Float64.lt]

theorem decision_no_change (w : World) (s : Bool) (u : Float64)
    (h : (u.ge monthly_byte_quota = true ∧ s = false) ∨
      (u.lt monthly_byte_quota = true ∧ s = true)) :
    decision w s u = (none, w) := by
  rcases h with ⟨hge, hs⟩ | ⟨hlt, hs⟩
  · subst hs
    simp [decision, ge_lt_exclusive u _ hge]
  · subst hs
    have : u.ge monthly_byte_quota = false := by
      cases hg : u.ge monthly_byte_quota
      · rfl
      · rw [ge_lt_exclusive u _ hg] at hlt; cases hlt
    simp [decision, this]

/-! ## The calls of a run -/

theorem callsOf_of_trace (w w1 : World) (l : List Event) (h : w1.trace = w.trace ++ l) :
    callsOf w w1 = l := by
  simp [callsOf, h]

theorem afterMetering_trace (w : World) (e : Option GoError) :
    (afterMetering w e).trace = w.trace ++
      [⟨.NewSession region, none⟩, ⟨.GetPublicAccessBlock website_bucket_name, none⟩,
        ⟨.GetMetricData website_bucket_name, e⟩] := by
  simp [afterMetering, log_trace]

@[simp]
theorem afterMetering_putAccessBlockErr (w : World) (e : Option GoError) :
    (afterMetering w e).putAccessBlockErr = w.putAccessBlockErr := rfl

@[simp]
theorem afterMetering_sendEmailErr (w : World) (e : Option GoError) :
    (afterMetering w e).sendEmailErr = w.sendEmailErr := rfl

@[simp]
theorem afterMetering_now (w : World) (e : Option GoError) :
    (afterMetering w e).now = w.now := rfl

theorem errorOnlyLast_split (l pre post : List Event) (ev : Event) (e : GoError)
    (hl : errorOnlyLast l = true) (hsplit : l = pre ++ ev :: post) (herr : ev.err = some e) :
    post = [] := by
  induction pre generalizing l with
  | nil =>
    cases post with
    | nil => rfl
    | cons p ps =>
      subst hsplit
      simp [errorOnlyLast, herr] at hl
  | cons a as ih =>
    subst hsplit
    cases has : as ++ ev :: post with
    | nil => simp at has
    | cons b bs =>
      simp only [List.cons_append, has, errorOnlyLast, Bool.and_eq_true] at hl
      exact ih (b :: bs) hl.2 has.symm

/-! ## C1: the cost short-circuit -/

/-- C1. When the session is set up, `site_is_online` reports the site off line
without error and the day of the month is not 1, then whatever the metering
service would answer, `handler` returns status 200 with body
"normal termination" and a nil error, and its calls are the session setup and
the access query only: no metering call, no mutation, no notification. -/
theorem handler_short_circuit (w : World)
    (hsess : w.sessionErr = none)
    (hoff : (site_is_online w website_bucket_name).1 = .ret (false, none))
    (hday : w.day ≠ 1) :
    (handler w).1 = .ret (⟨200, "normal termination"⟩, none) ∧
    callsOf w (handler w).2 =
      [⟨.NewSession region, none⟩, ⟨.GetPublicAccessBlock website_bucket_name, none⟩] ∧
    (callsOf w (handler w).2).countP (fun e => e.call.isMetering) = 0 ∧
    (callsOf w (handler w).2).countP (fun e => e.call.isMutation) = 0 ∧
    (callsOf w (handler w).2).countP (fun e => e.call.isNotification) = 0 := by
  rw [handler_short w hsess hoff hday]
  have hc : callsOf w ((w.log (.NewSession region) none).log
      (.GetPublicAccessBlock website_bucket_name) none) =
      [⟨.NewSession region, none⟩, ⟨.GetPublicAccessBlock website_bucket_name, none⟩] :=
    callsOf_of_trace _ _ _ (by simp [log_trace])
  rw [hc]
  simp [confirmation, Call.isMetering, Call.isMutation, Call.isNotification]

/-- C1, at the world where the site is off line on the 15th of the month. -/
theorem handler_short_circuit_witness :
    (handler underQuotaOfflineWorld).1 = .ret (⟨200, "normal termination"⟩, none) ∧
    callsOf underQuotaOfflineWorld (handler underQuotaOfflineWorld).2 =
      [⟨.NewSession region, none⟩, ⟨.GetPublicAccessBlock website_bucket_name, none⟩] ∧
    (callsOf underQuotaOfflineWorld (handler underQuotaOfflineWorld).2).countP
      (fun e => e.call.isMetering) = 0 ∧
    (callsOf underQuotaOfflineWorld (handler underQuotaOfflineWorld).2).countP
      (fun e => e.call.isMutation) = 0 ∧
    (callsOf underQuotaOfflineWorld (handler underQuotaOfflineWorld).2).countP
      (fun e => e.call.isNotification) = 0 :=
  handler_short_circuit underQuotaOfflineWorld rfl rfl (by decide)

/-! ## C2: over quota while on line -/

/-- C2, as stated, fails: in the over-quota scenario (on line, 120e9 bytes served)
where S3 rejects the write, the run issues the TakeOffline call and no
notification at all, instead of exactly one. -/
theorem over_quota_write_rejected_no_notification :
    (site_is_online writeRejectedWorld website_bucket_name).1 = .ret (true, none) ∧
    (bytes_served_this_month writeRejectedWorld website_bucket_name).1 =
      .ret (.finite 120000000000, none) ∧
    (Float64.finite 120000000000).ge monthly_byte_quota = true ∧
    (callsOf writeRejectedWorld (handler writeRejectedWorld).2).countP
      (fun e => e.call.isTakeOffline) = 1 ∧
    (callsOf writeRejectedWorld (handler writeRejectedWorld).2).countP
      (fun e => e.call.isNotification) = 0 := by
  refine ⟨rfl, rfl, by decide, by decide, by decide⟩

/-- C2, amended. When the session is set up, the site is on line and the usage `u`
reported by the metering service is at least the quota (equal included), `handler`
issues exactly one TakeOffline call and no BringOnline call; when the write is
accepted it then issues exactly one notification, the "offline" one, as its last
call, and when the write is rejected it issues no notification; the run returns a
nil error if and only if the write and the notification both succeed. -/
theorem handler_over_quota_online (w : World) (u : Float64)
    (hsess : w.sessionErr = none)
    (hon : (site_is_online w website_bucket_name).1 = .ret (true, none))
    (hu : (bytes_served_this_month w website_bucket_name).1 = .ret (u, none))
    (hge : u.ge monthly_byte_quota = true) :
    (callsOf w (handler w).2).countP (fun e => e.call.isTakeOffline) = 1 ∧
    (callsOf w (handler w).2).countP (fun e => e.call.isMutation) = 1 ∧
    (callsOf w (handler w).2).countP (fun e => e.call.isBringOnline) = 0 ∧
    (w.putAccessBlockErr takeOfflineInput = none →
      callsOf w (handler w).2 =
        [⟨.NewSession region, none⟩, ⟨.GetPublicAccessBlock website_bucket_name, none⟩,
          ⟨.GetMetricData website_bucket_name, none⟩,
          ⟨.PutPublicAccessBlock takeOfflineInput, none⟩,
          ⟨.SendEmail (sendEmailInput w.now website_bucket_name u false),
            w.sendEmailErr (sendEmailInput w.now website_bucket_name u false)⟩] ∧
      (callsOf w (handler w).2).countP (fun e => e.call.isNotification) = 1) ∧
    (w.putAccessBlockErr takeOfflineInput ≠ none →
      (callsOf w (handler w).2).countP (fun e => e.call.isNotification) = 0) ∧
    ∃ err, (handler w).1 = .ret (confirmation err) ∧
      (err = none ↔ w.putAccessBlockErr takeOfflineInput = none ∧
        w.sendEmailErr (sendEmailInput w.now website_bucket_name u false) = none) := by
  rw [handler_decides w true u hsess hon (Or.inl rfl) hu, decision_take_offline _ u hge]
  simp only [afterMetering_putAccessBlockErr, afterMetering_sendEmailErr, afterMetering_now]
  cases hp : w.putAccessBlockErr takeOfflineInput with
  | none =>
    have hc : callsOf w ((((afterMetering w none).log (.PutPublicAccessBlock takeOfflineInput)
        none).store (some allBlocked)).log
        (.SendEmail (sendEmailInput w.now website_bucket_name u false))
        (w.sendEmailErr (sendEmailInput w.now website_bucket_name u false))) =
        [⟨.NewSession region, none⟩, ⟨.GetPublicAccessBlock website_bucket_name, none⟩,
          ⟨.GetMetricData website_bucket_name, none⟩,
          ⟨.PutPublicAccessBlock takeOfflineInput, none⟩,
          ⟨.SendEmail (sendEmailInput w.now website_bucket_name u false),
            w.sendEmailErr (sendEmailInput w.now website_bucket_name u false)⟩] :=
      callsOf_of_trace _ _ _ (by simp [log_trace, afterMetering_trace])
    rw [hc]
    refine ⟨?_, ?_, ?_, ?_, ?_, _, rfl, ?_⟩
    · simp [Call.isTakeOffline, takeOfflineInput]
    · simp [Call.isMutation]
    · simp [Call.isBringOnline, takeOfflineInput, allBlocked, noneBlocked]
    · intro _
      exact ⟨rfl, by simp [Call.isNotification]⟩
    · intro h
      exact absurd rfl h
    · simp
  | some e =>
    have hc : callsOf w ((afterMetering w none).log (.PutPublicAccessBlock takeOfflineInput)
        (some e)) =
        [⟨.NewSession region, none⟩, ⟨.GetPublicAccessBlock website_bucket_name, none⟩,
          ⟨.GetMetricData website_bucket_name, none⟩,
          ⟨.PutPublicAccessBlock takeOfflineInput, some e⟩] :=
      callsOf_of_trace _ _ _ (by simp [log_trace, afterMetering_trace])
    rw [hc]
    refine ⟨?_, ?_, ?_, ?_, ?_, _, rfl, ?_⟩
    · simp [Call.isTakeOffline, takeOfflineInput]
    · simp [Call.isMutation]
    · simp [Call.isBringOnline, takeOfflineInput, allBlocked, noneBlocked]
    · intro h
      cases h
    · intro _
      simp [Call.isNotification]
    · simp

/-- C2 amended, at the over-quota scenario in which every collaborator succeeds. -/
theorem handler_over_quota_online_witness :
    (callsOf overQuotaWorld (handler overQuotaWorld).2).countP
      (fun e => e.call.isTakeOffline) = 1 ∧
    (callsOf overQuotaWorld (handler overQuotaWorld).2).countP
      (fun e => e.call.isNotification) = 1 ∧
    (handler overQuotaWorld).1 = .ret (confirmation none) := by
  have h := handler_over_quota_online overQuotaWorld (.finite 120000000000) rfl rfl rfl
    (by decide)
  obtain ⟨h1, _, _, h4, _, err, h6, h7⟩ := h
  refine ⟨h1, (h4 rfl).2, ?_⟩
  rw [h6, h7.2 ⟨rfl, rfl⟩]

/-! ## C3: under quota while off line -/

/-- C3, as stated, fails. With the site off line and 50e9 bytes served (under the
quota), on the 15th of the month the run makes no BringOnline call and no
notification; and on the first of the month, when S3 rejects the write, the run
makes the BringOnline call and no notification. -/
theorem under_quota_offline_not_always_restored :
    (site_is_online underQuotaOfflineWorld website_bucket_name).1 = .ret (false, none) ∧
    (bytes_served_this_month underQuotaOfflineWorld website_bucket_name).1 =
      .ret (.finite 50000000000, none) ∧
    (Float64.finite 50000000000).lt monthly_byte_quota = true ∧
    (callsOf underQuotaOfflineWorld (handler underQuotaOfflineWorld).2).countP
      (fun e => e.call.isBringOnline) = 0 ∧
    (callsOf underQuotaOfflineWorld (handler underQuotaOfflineWorld).2).countP
      (fun e => e.call.isNotification) = 0 ∧
    (site_is_online firstDayRejectedWorld website_bucket_name).1 = .ret (false, none) ∧
    (bytes_served_this_month firstDayRejectedWorld website_bucket_name).1 =
      .ret (.finite 50000000000, none) ∧
    (callsOf firstDayRejectedWorld (handler firstDayRejectedWorld).2).countP
      (fun e => e.call.isBringOnline) = 1 ∧
    (callsOf firstDayRejectedWorld (handler firstDayRejectedWorld).2).countP
      (fun e => e.call.isNotification) = 0 := by
  refine ⟨rfl, rfl, by decide, by decide, by decide, rfl, rfl, by decide, by decide⟩

/-- C3, amended. When the session is set up, the site is off line, the usage `u`
reported by the metering service is below the quota and today is the first day
of the month, `handler` issues exactly one BringOnline call and no TakeOffline
call; when the write is accepted it then issues exactly one notification, the
"online" one, as its last call, and when the write is rejected it issues no
notification; the run returns a nil error if and only if the write and the
notification both succeed. -/
theorem handler_under_quota_offline (w : World) (u : Float64)
    (hsess : w.sessionErr = none)
    (hoff : (site_is_online w website_bucket_name).1 = .ret (false, none))
    (hday : w.day = 1)
    (hu : (bytes_served_this_month w website_bucket_name).1 = .ret (u, none))
    (hlt : u.lt monthly_byte_quota = true) :
    (callsOf w (handler w).2).countP (fun e => e.call.isBringOnline) = 1 ∧
    (callsOf w (handler w).2).countP (fun e => e.call.isMutation) = 1 ∧
    (callsOf w (handler w).2).countP (fun e => e.call.isTakeOffline) = 0 ∧
    (w.putAccessBlockErr bringOnlineInput = none →
      callsOf w (handler w).2 =
        [⟨.NewSession region, none⟩, ⟨.GetPublicAccessBlock website_bucket_name, none⟩,
          ⟨.GetMetricData website_bucket_name, none⟩,
          ⟨.PutPublicAccessBlock bringOnlineInput, none⟩,
          ⟨.SendEmail (sendEmailInput w.now website_bucket_name u true),
            w.sendEmailErr (sendEmailInput w.now website_bucket_name u true)⟩] ∧
      (callsOf w (handler w).2).countP (fun e => e.call.isNotification) = 1) ∧
    (w.putAccessBlockErr bringOnlineInput ≠ none →
      (callsOf w (handler w).2).countP (fun e => e.call.isNotification) = 0) ∧
    ∃ err, (handler w).1 = .ret (confirmation err) ∧
      (err = none ↔ w.putAccessBlockErr bringOnlineInput = none ∧
        w.sendEmailErr (sendEmailInput w.now website_bucket_name u true) = none) := by
  rw [handler_decides w false u hsess hoff (Or.inr hday) hu, decision_bring_online _ u hlt]
  simp only [afterMetering_putAccessBlockErr, afterMetering_sendEmailErr, afterMetering_now]
  cases hp : w.putAccessBlockErr bringOnlineInput with
  | none =>
    have hc : callsOf w ((((afterMetering w none).log (.PutPublicAccessBlock bringOnlineInput)
        none).store (some noneBlocked)).log
        (.SendEmail (sendEmailInput w.now website_bucket_name u true))
        (w.sendEmailErr (sendEmailInput w.now website_bucket_name u true))) =
        [⟨.NewSession region, none⟩, ⟨.GetPublicAccessBlock website_bucket_name, none⟩,
          ⟨.GetMetricData website_bucket_name, none⟩,
          ⟨.PutPublicAccessBlock bringOnlineInput, none⟩,
          ⟨.SendEmail (sendEmailInput w.now website_bucket_name u true),
            w.sendEmailErr (sendEmailInput w.now website_bucket_name u true)⟩] :=
      callsOf_of_trace _ _ _ (by simp [log_trace, afterMetering_trace])
    rw [hc]
    refine ⟨?_, ?_, ?_, ?_, ?_, _, rfl, ?_⟩
    · simp [Call.isBringOnline, bringOnlineInput]
    · simp [Call.isMutation]
    · simp [Call.isTakeOffline, bringOnlineInput, allBlocked, noneBlocked]
    · intro _
      exact ⟨rfl, by simp [Call.isNotification]⟩
    · intro h
      exact absurd rfl h
    · simp
  | some e =>
    have hc : callsOf w ((afterMetering w none).log (.PutPublicAccessBlock bringOnlineInput)
        (some e)) =
        [⟨.NewSession region, none⟩, ⟨.GetPublicAccessBlock website_bucket_name, none⟩,
          ⟨.GetMetricData website_bucket_name, none⟩,
          ⟨.PutPublicAccessBlock bringOnlineInput, some e⟩] :=
      callsOf_of_trace _ _ _ (by simp [log_trace, afterMetering_trace])
    rw [hc]
    refine ⟨?_, ?_, ?_, ?_, ?_, _, rfl, ?_⟩
    · simp [Call.isBringOnline, bringOnlineInput]
    · simp [Call.isMutation]
    · simp [Call.isTakeOffline, bringOnlineInput, allBlocked, noneBlocked]
    · intro h
      cases h
    · intro _
      simp [Call.isNotification]
    · simp

/-- C3 amended, at the world that is off line with 50e9 bytes served on the first
day of the month and in which every collaborator succeeds. -/
theorem handler_under_quota_offline_witness :
    (callsOf firstDayWorld (handler firstDayWorld).2).countP
      (fun e => e.call.isBringOnline) = 1 ∧
    (callsOf firstDayWorld (handler firstDayWorld).2).countP
      (fun e => e.call.isNotification) = 1 ∧
    (handler firstDayWorld).1 = .ret (confirmation none) := by
  have h := handler_under_quota_offline firstDayWorld (.finite 50000000000) rfl rfl rfl rfl
    (by decide)
  obtain ⟨h1, _, _, h4, _, err, h6, h7⟩ := h
  refine ⟨h1, (h4 rfl).2, ?_⟩
  rw [h6, h7.2 ⟨rfl, rfl⟩]

/-! ## C4: no change -/

/-- C4. When the session is set up, `site_is_online` reports the state `s` without
error and the usage `u` the metering service reports is at least the quota with
the site off line, or below the quota with the site on line, then on every day of
the month `handler` makes no mutation call (neither TakeOffline nor BringOnline)
and no notification call. -/
theorem handler_no_change (w : World) (s : Bool) (u : Float64)
    (hsess : w.sessionErr = none)
    (hs : (site_is_online w website_bucket_name).1 = .ret (s, none))
    (hu : (bytes_served_this_month w website_bucket_name).1 = .ret (u, none))
    (h : (u.ge monthly_byte_quota = true ∧ s = false) ∨
      (u.lt monthly_byte_quota = true ∧ s = true)) :
    (callsOf w (handler w).2).countP (fun e => e.call.isMutation) = 0 ∧
    (callsOf w (handler w).2).countP (fun e => e.call.isTakeOffline) = 0 ∧
    (callsOf w (handler w).2).countP (fun e => e.call.isBringOnline) = 0 ∧
    (callsOf w (handler w).2).countP (fun e => e.call.isNotification) = 0 := by
  by_cases hgo : s = true ∨ w.day = 1
  · rw [handler_decides w s u hsess hs hgo hu, decision_no_change _ s u h]
    rw [callsOf_of_trace _ _ _ (afterMetering_trace w none)]
    simp [Call.isMutation, Call.isTakeOffline, Call.isBringOnline, Call.isNotification]
  · have hs0 : s = false := by
      cases s
      · rfl
      · exact absurd (Or.inl rfl) hgo
    have hday : w.day ≠ 1 := fun hd => hgo (Or.inr hd)
    subst hs0
    rw [handler_short w hsess hs hday]
    have hc : callsOf w ((w.log (.NewSession region) none).log
        (.GetPublicAccessBlock website_bucket_name) none) =
        [⟨.NewSession region, none⟩, ⟨.GetPublicAccessBlock website_bucket_name, none⟩] :=
      callsOf_of_trace _ _ _ (by simp [log_trace])
    rw [hc]
    simp [Call.isMutation, Call.isTakeOffline, Call.isBringOnline, Call.isNotification]

/-- C4, at the world that is on line with 50e9 bytes served. -/
theorem handler_no_change_witness :
    (callsOf underQuotaOnlineWorld (handler underQuotaOnlineWorld).2).countP
      (fun e => e.call.isMutation) = 0 ∧
    (callsOf underQuotaOnlineWorld (handler underQuotaOnlineWorld).2).countP
      (fun e => e.call.isTakeOffline) = 0 ∧
    (callsOf underQuotaOnlineWorld (handler underQuotaOnlineWorld).2).countP
      (fun e => e.call.isBringOnline) = 0 ∧
    (callsOf underQuotaOnlineWorld (handler underQuotaOnlineWorld).2).countP
      (fun e => e.call.isNotification) = 0 :=
  handler_no_change underQuotaOnlineWorld true (.finite 50000000000) rfl rfl rfl
    (Or.inr ⟨by decide, rfl⟩)

/-! ## C5: error abort and propagation -/

theorem decision_idle (w : World) (s : Bool) (u : Float64)
    (h1 : (u.ge monthly_byte_quota && s) = false)
    (h2 : (u.lt monthly_byte_quota && !s) = false) :
    decision w s u = (none, w) := by
  simp [decision, h1, h2]

theorem getLast_of_split (l pre : List Event) (ev : Event) (h : l = pre ++ [ev]) :
    l.getLast? = some ev := by
  subst h
  simp

/-- A run whose log has an error on its last event at most, and whose result is
the confirmation of that last error, aborts at the first error. -/
theorem abort_of_last (l : List Event) (res : Outcome (APIGatewayProxyResponse × Option GoError))
    (hl : errorOnlyLast l = true)
    (hres : ∀ ev e, l.getLast? = some ev → ev.err = some e →
      res = .ret (confirmation (some e)))
    (pre post : List Event) (ev : Event) (e : GoError)
    (hsplit : l = pre ++ ev :: post) (herr : ev.err = some e) :
    post = [] ∧ res = .ret (⟨200, "abnormal termination"⟩, some e) := by
  have hp := errorOnlyLast_split l pre post ev e hl hsplit herr
  subst hp
  refine ⟨rfl, ?_⟩
  rw [hres ev e (getLast_of_split l pre ev hsplit) herr]
  simp [confirmation]

theorem handler_aborts_at_last (w : World) :
    errorOnlyLast (callsOf w (handler w).2) = true ∧
    ∀ ev e, (callsOf w (handler w).2).getLast? = some ev → ev.err = some e →
      (handler w).1 = .ret (confirmation (some e)) := by
  cases hse : w.sessionErr with
  | some e0 =>
    rw [handler_session_error w e0 hse, callsOf_of_trace _ _ _ (log_trace _ _ _)]
    refine ⟨rfl, ?_⟩
    intro ev e h1 h2
    simp at h1
    subst h1
    simp at h2
    rw [h2]
  | none =>
    have c2 : ∀ x : Option GoError, callsOf w ((w.log (.NewSession region) none).log
        (.GetPublicAccessBlock website_bucket_name) x) =
        [⟨.NewSession region, none⟩, ⟨.GetPublicAccessBlock website_bucket_name, x⟩] :=
      fun x => callsOf_of_trace _ _ _ (by simp [log_trace])
    cases hr : (site_is_online w website_bucket_name).1 with
    | panicked m =>
      rw [handler_site_panic w m hse hr, c2]
      refine ⟨rfl, ?_⟩
      intro ev e h1 h2
      simp at h1
      subst h1
      simp at h2
    | ret r =>
      obtain ⟨s, _ | e1⟩ := r
      swap
      · rw [handler_site_error w s e1 hse hr, c2]
        refine ⟨rfl, ?_⟩
        intro ev e h1 h2
        simp at h1
        subst h1
        simp at h2
        rw [h2]
      by_cases hgo : s = true ∨ w.day = 1
      swap
      · have hs0 : s = false := by
          cases s
          · rfl
          · exact absurd (Or.inl rfl) hgo
        have hday : w.day ≠ 1 := fun hd => hgo (Or.inr hd)
        subst hs0
        rw [handler_short w hse hr hday, c2]
        refine ⟨rfl, ?_⟩
        intro ev e h1 h2
        simp at h1
        subst h1
        simp at h2
      cases hb : (bytes_served_this_month w website_bucket_name).1 with
      | panicked m =>
        rw [handler_bytes_panic w s m hse hr hgo hb,
          callsOf_of_trace _ _ _ (afterMetering_trace w none)]
        refine ⟨rfl, ?_⟩
        intro ev e h1 h2
        simp at h1
        subst h1
        simp at h2
      | ret rb =>
        obtain ⟨u, _ | e2⟩ := rb
        swap
        · rw [handler_bytes_error w s u e2 hse hr hgo hb,
            callsOf_of_trace _ _ _ (afterMetering_trace w (some e2))]
          refine ⟨rfl, ?_⟩
          intro ev e h1 h2
          simp at h1
          subst h1
          simp at h2
          rw [h2]
        rw [handler_decides w s u hse hr hgo hb]
        by_cases h1 : (u.ge monthly_byte_quota && s) = true
        · simp only [Bool.and_eq_true] at h1
          obtain ⟨hge, hs1⟩ := h1
          subst hs1
          rw [decision_take_offline _ u hge]
          simp only [afterMetering_putAccessBlockErr, afterMetering_sendEmailErr,
            afterMetering_now]
          cases hp : w.putAccessBlockErr takeOfflineInput with
          | none =>
            simp only []
            rw [callsOf_of_trace w _ [⟨.NewSession region, none⟩,
              ⟨.GetPublicAccessBlock website_bucket_name, none⟩,
              ⟨.GetMetricData website_bucket_name, none⟩,
              ⟨.PutPublicAccessBlock takeOfflineInput, none⟩,
              ⟨.SendEmail (sendEmailInput w.now website_bucket_name u false),
                w.sendEmailErr (sendEmailInput w.now website_bucket_name u false)⟩]
              (by simp [log_trace, afterMetering_trace])]
            refine ⟨rfl, ?_⟩
            intro ev e h1 h2
            simp at h1
            subst h1
            simp at h2
            rw [h2]
          | some e3 =>
            simp only []
            rw [callsOf_of_trace w _ [⟨.NewSession region, none⟩,
              ⟨.GetPublicAccessBlock website_bucket_name, none⟩,
              ⟨.GetMetricData website_bucket_name, none⟩,
              ⟨.PutPublicAccessBlock takeOfflineInput, some e3⟩]
              (by simp [log_trace, afterMetering_trace])]
            refine ⟨rfl, ?_⟩
            intro ev e h1 h2
            simp at h1
            subst h1
            simp at h2
            rw [h2]
        by_cases h2 : (u.lt monthly_byte_quota && !s) = true
        · simp only [Bool.and_eq_true] at h2
          obtain ⟨hlt, hs1⟩ := h2
          have hs2 : s = false := by simpa using hs1
          subst hs2
          rw [decision_bring_online _ u hlt]
          simp only [afterMetering_putAccessBlockErr, afterMetering_sendEmailErr,
            afterMetering_now]
          cases hp : w.putAccessBlockErr bringOnlineInput with
          | none =>
            simp only []
            rw [callsOf_of_trace w _ [⟨.NewSession region, none⟩,
              ⟨.GetPublicAccessBlock website_bucket_name, none⟩,
              ⟨.GetMetricData website_bucket_name, none⟩,
              ⟨.PutPublicAccessBlock bringOnlineInput, none⟩,
              ⟨.SendEmail (sendEmailInput w.now website_bucket_name u true),
                w.sendEmailErr (sendEmailInput w.now website_bucket_name u true)⟩]
              (by simp [log_trace, afterMetering_trace])]
            refine ⟨rfl, ?_⟩
            intro ev e h1 h2
            simp at h1
            subst h1
            simp at h2
            rw [h2]
          | some e3 =>
            simp only []
            rw [callsOf_of_trace w _ [⟨.NewSession region, none⟩,
              ⟨.GetPublicAccessBlock website_bucket_name, none⟩,
              ⟨.GetMetricData website_bucket_name, none⟩,
              ⟨.PutPublicAccessBlock bringOnlineInput, some e3⟩]
              (by simp [log_trace, afterMetering_trace])]
            refine ⟨rfl, ?_⟩
            intro ev e h1 h2
            simp at h1
            subst h1
            simp at h2
            rw [h2]
        rw [decision_idle _ s u (by simpa using h1) (by simpa using h2),
          callsOf_of_trace _ _ _ (afterMetering_trace w none)]
        refine ⟨rfl, ?_⟩
        intro ev e h1 h2
        simp at h1
        subst h1
        simp at h2

/-- C5. In every run of `handler`, when one of its external calls (session setup,
access query, metering query, write, notification) comes back with an error,
that call is the last one of the run and `handler` returns that very error with
the response of status 200 and body "abnormal termination". -/
theorem handler_error_aborts (w : World) (pre post : List Event) (ev : Event) (e : GoError)
    (hsplit : callsOf w (handler w).2 = pre ++ ev :: post)
    (herr : ev.err = some e) :
    post = [] ∧ (handler w).1 = .ret (⟨200, "abnormal termination"⟩, some e) :=
  abort_of_last _ _ (handler_aborts_at_last w).1 (handler_aborts_at_last w).2
    pre post ev e hsplit herr

/-- C5, at the world whose access query fails: the run stops after that query. -/
theorem handler_error_aborts_witness :
    callsOf accessQueryFailedWorld (handler accessQueryFailedWorld).2 =
      [⟨.NewSession region, none⟩] ++
        ⟨.GetPublicAccessBlock website_bucket_name, some "AccessQueryFailed"⟩ :: [] ∧
    ([] : List Event) = [] ∧
    (handler accessQueryFailedWorld).1 =
      .ret (⟨200, "abnormal termination"⟩, some "AccessQueryFailed") :=
  ⟨rfl, handler_error_aborts accessQueryFailedWorld [⟨.NewSession region, none⟩] []
    ⟨.GetPublicAccessBlock website_bucket_name, some "AccessQueryFailed"⟩
    "AccessQueryFailed" rfl rfl⟩

/-! ## C6 and C7: the accessibility oracle -/

/-- C6. When the access query reports no error and a configuration whose four
flags are present, `site_is_online` returns without error, it returns true
exactly when the four flags are all false, and it returns false as soon as one
flag is true. -/
theorem site_is_online_iff_no_flag (w : World) (bucket_name : String) (a b c d : Bool)
    (herr : w.getAccessBlockErr = none)
    (hcfg : w.accessBlock = some ⟨some a, some b, some c, some d⟩) :
    (site_is_online w bucket_name).1 = .ret (!(a || b || c || d), none) ∧
    ((site_is_online w bucket_name).1 = .ret (true, none) ↔
      a = false ∧ b = false ∧ c = false ∧ d = false) ∧
    ((a = true ∨ b = true ∨ c = true ∨ d = true) →
      (site_is_online w bucket_name).1 = .ret (false, none)) := by
  have h : (site_is_online w bucket_name).1 = .ret (!(a || b || c || d), none) := by
    unfold site_is_online GetPublicAccessBlock
    rw [herr, hcfg]
    cases a <;> cases b <;> cases c <;> cases d <;> rfl
  rw [h]
  refine ⟨rfl, ?_, ?_⟩
  · cases a <;> cases b <;> cases c <;> cases d <;> simp
  · cases a <;> cases b <;> cases c <;> cases d <;> simp

/-- C6, at the configuration of a bucket set up for static website hosting. -/
theorem site_is_online_iff_no_flag_witness :
    (site_is_online overQuotaWorld website_bucket_name).1 =
      .ret (!(false || false || false || false), none) ∧
    ((site_is_online overQuotaWorld website_bucket_name).1 = .ret (true, none) ↔
      false = false ∧ false = false ∧ false = false ∧ false = false) ∧
    ((false = true ∨ false = true ∨ false = true ∨ false = true) →
      (site_is_online overQuotaWorld website_bucket_name).1 = .ret (false, none)) :=
  site_is_online_iff_no_flag overQuotaWorld website_bucket_name false false false false
    rfl rfl

/-- C7 fails on the code. When the access query reports no error and no
configuration, `site_is_online` returns neither a boolean nor an error: it
panics on the nil pointer, and so does `handler`, after the access query. When
the first flag is set and the three others are absent, it returns false with a
nil error. -/
theorem site_is_online_absent_configuration :
    (site_is_online absentConfigurationWorld website_bucket_name).1 =
      .panicked nilDereference ∧
    (handler absentConfigurationWorld).1 = .panicked nilDereference ∧
    callsOf absentConfigurationWorld (handler absentConfigurationWorld).2 =
      [⟨.NewSession region, none⟩, ⟨.GetPublicAccessBlock website_bucket_name, none⟩] ∧
    (site_is_online partialConfigurationWorld website_bucket_name).1 =
      .ret (false, none) := by
  refine ⟨rfl, rfl, rfl, rfl⟩

/-! ## C8: the usage metric reader -/

/-- C8. For every error-free answer of the metering service that carries no data
point (the list of results absent or empty, or the values of the first result
absent or empty), `bytes_served_this_month` on the output decoded from it returns
zero with a nil error: neither `MetricDataResults[0]` nor `values[0]` is reached,
so no index fails. -/
theorem bytes_served_zero_on_no_data (w : World) (bucket_name : String)
    (a : MetricDataAnswer)
    (herr : w.metricErr = none)
    (hdata : w.metricData = decodeMetricData a)
    (hempty : a.MetricDataResults = none ∨ a.MetricDataResults = some [] ∨
      ∃ r rest, a.MetricDataResults = some (r :: rest) ∧
        (r.Values = none ∨ r.Values = some [])) :
    (bytes_served_this_month w bucket_name).1 = .ret (.finite 0, none) := by
  unfold bytes_served_this_month GetMetricData
  rw [herr, hdata]
  rcases hempty with h | h | ⟨r, rest, h, hv | hv⟩
  · simp [decodeMetricData, decodeList, h]
  · simp [decodeMetricData, decodeList, h]
  · simp [decodeMetricData, decodeMetricDataResult, decodeList, h, hv]
  · simp [decodeMetricData, decodeMetricDataResult, decodeList, h, hv]

/-- C8, at the answer for a site not visited this month: one result without
values. -/
theorem bytes_served_zero_on_no_data_witness :
    (bytes_served_this_month unvisitedWorld website_bucket_name).1 =
      .ret (.finite 0, none) :=
  bytes_served_zero_on_no_data unvisitedWorld website_bucket_name unvisitedAnswer rfl rfl
    (Or.inr (Or.inr ⟨⟨some []⟩, [], rfl, Or.inr rfl⟩))

/-! ## C9: the mutators -/

/-- C9. Whatever configuration S3 stores before, a `failed_taking_site_offline`
whose write is accepted returns nil and leaves the four flags true, and a
`failed_putting_site_online` whose write is accepted returns nil and leaves the
four flags false; on a store that already holds that configuration the store is
unchanged, and a second application returns nil again and leaves the store of
the first. -/
theorem mutators_idempotent (w : World) (bucket_name : String) :
    (w.putAccessBlockErr ⟨bucket_name, some allBlocked⟩ = none →
      (failed_taking_site_offline w bucket_name).1 = none ∧
      (failed_taking_site_offline w bucket_name).2.accessBlock =
        some ⟨some true, some true, some true, some true⟩ ∧
      (w.accessBlock = some allBlocked →
        (failed_taking_site_offline w bucket_name).2.accessBlock = w.accessBlock) ∧
      (failed_taking_site_offline (failed_taking_site_offline w bucket_name).2
        bucket_name).1 = none ∧
      (failed_taking_site_offline (failed_taking_site_offline w bucket_name).2
        bucket_name).2.accessBlock =
        (failed_taking_site_offline w bucket_name).2.accessBlock) ∧
    (w.putAccessBlockErr ⟨bucket_name, some noneBlocked⟩ = none →
      (failed_putting_site_online w bucket_name).1 = none ∧
      (failed_putting_site_online w bucket_name).2.accessBlock =
        some ⟨some false, some false, some false, some false⟩ ∧
      (w.accessBlock = some noneBlocked →
        (failed_putting_site_online w bucket_name).2.accessBlock = w.accessBlock) ∧
      (failed_putting_site_online (failed_putting_site_online w bucket_name).2
        bucket_name).1 = none ∧
      (failed_putting_site_online (failed_putting_site_online w bucket_name).2
        bucket_name).2.accessBlock =
        (failed_putting_site_online w bucket_name).2.accessBlock) := by
  constructor
  · intro h
    have h1 : failed_taking_site_offline w bucket_name =
        (none, (w.log (.PutPublicAccessBlock ⟨bucket_name, some allBlocked⟩) none).store
          (some allBlocked)) := by
      show PutPublicAccessBlock w ⟨bucket_name, some allBlocked⟩ = _
      unfold PutPublicAccessBlock
      rw [h]
    have h2 : failed_taking_site_offline
        ((w.log (.PutPublicAccessBlock ⟨bucket_name, some allBlocked⟩) none).store
          (some allBlocked)) bucket_name =
        (none, ((((w.log (.PutPublicAccessBlock ⟨bucket_name, some allBlocked⟩) none).store
          (some allBlocked))).log (.PutPublicAccessBlock ⟨bucket_name, some allBlocked⟩)
            none).store (some allBlocked)) := by
      show PutPublicAccessBlock _ ⟨bucket_name, some allBlocked⟩ = _
      unfold PutPublicAccessBlock
      simp [h]
    rw [h1]
    refine ⟨rfl, rfl, fun hw => ?_, ?_, ?_⟩
    · rw [hw]
      rfl
    · exact congrArg Prod.fst h2
    · exact congrArg (fun r => r.2.accessBlock) h2
  · intro h
    have h1 : failed_putting_site_online w bucket_name =
        (none, (w.log (.PutPublicAccessBlock ⟨bucket_name, some noneBlocked⟩) none).store
          (some noneBlocked)) := by
      show PutPublicAccessBlock w ⟨bucket_name, some noneBlocked⟩ = _
      unfold PutPublicAccessBlock
      rw [h]
    have h2 : failed_putting_site_online
        ((w.log (.PutPublicAccessBlock ⟨bucket_name, some noneBlocked⟩) none).store
          (some noneBlocked)) bucket_name =
        (none, ((((w.log (.PutPublicAccessBlock ⟨bucket_name, some noneBlocked⟩) none).store
          (some noneBlocked))).log (.PutPublicAccessBlock ⟨bucket_name, some noneBlocked⟩)
            none).store (some noneBlocked)) := by
      show PutPublicAccessBlock _ ⟨bucket_name, some noneBlocked⟩ = _
      unfold PutPublicAccessBlock
      simp [h]
    rw [h1]
    refine ⟨rfl, rfl, fun hw => ?_, ?_, ?_⟩
    · rw [hw]
      rfl
    · exact congrArg Prod.fst h2
    · exact congrArg (fun r => r.2.accessBlock) h2

/-- C9, at a world whose writes are accepted: from the all-false store the site is
taken off line, from the all-true store it is put on line. -/
theorem mutators_idempotent_witness :
    (failed_taking_site_offline overQuotaWorld website_bucket_name).1 = none ∧
    (failed_taking_site_offline overQuotaWorld website_bucket_name).2.accessBlock =
      some ⟨some true, some true, some true, some true⟩ ∧
    (failed_putting_site_online underQuotaOfflineWorld website_bucket_name).1 = none ∧
    (failed_putting_site_online underQuotaOfflineWorld website_bucket_name).2.accessBlock =
      some ⟨some false, some false, some false, some false⟩ :=
  ⟨((mutators_idempotent overQuotaWorld website_bucket_name).1 rfl).1,
    ((mutators_idempotent overQuotaWorld website_bucket_name).1 rfl).2.1,
    ((mutators_idempotent underQuotaOfflineWorld website_bucket_name).2 rfl).1,
    ((mutators_idempotent underQuotaOfflineWorld website_bucket_name).2 rfl).2.1⟩

/-! ## C10: the text of the notification -/

set_option maxRecDepth 100000 in
/-- C10, as stated, fails. In the over-quota scenario (quota 100e9, on line, 120e9
bytes served, every call succeeding) the last call of `handler` is the "offline"
notification, and its body contains neither "120.000e+09" nor "100.000e+09". -/
theorem over_quota_body_not_engineering_form :
    (callsOf overQuotaWorld (handler overQuotaWorld).2).getLast? =
      some ⟨.SendEmail (sendEmailInput overQuotaWorld.now website_bucket_name
        (.finite 120000000000) false), none⟩ ∧
    ¬ ("120.000e+09".data <:+: (sendEmailInput overQuotaWorld.now website_bucket_name
        (.finite 120000000000) false).Body.data) ∧
    ¬ ("100.000e+09".data <:+: (sendEmailInput overQuotaWorld.now website_bucket_name
        (.finite 120000000000) false).Body.data) := by
  refine ⟨rfl, by decide, by decide⟩

theorem sprintf_e3_quota : sprintf_e3 monthly_byte_quota = "1.000e+11" := by decide

theorem sprintf_e3_scenario : sprintf_e3 (.finite 120000000000) = "1.200e+11" := by decide

/-- C10, amended. With the quota of 100e9, the site on line, 120e9 bytes metered
and the write accepted, `handler` calls TakeOffline and then sends the "offline"
notification as its last call; whatever the clock reads, the body composed by
`email_is_unsendable` contains "1.200e+11" and "1.000e+11", the two numbers in
the one-digit mantissa form of the format "%.3e"; and the run returns the
response "normal termination" with a nil error when the notification succeeds
too. -/
theorem over_quota_scenario_text (w : World)
    (hsess : w.sessionErr = none)
    (hon : (site_is_online w website_bucket_name).1 = .ret (true, none))
    (hu : (bytes_served_this_month w website_bucket_name).1 =
      .ret (.finite 120000000000, none))
    (hput : w.putAccessBlockErr takeOfflineInput = none) :
    monthly_byte_quota = .finite 100000000000 ∧
    callsOf w (handler w).2 =
      [⟨.NewSession region, none⟩, ⟨.GetPublicAccessBlock website_bucket_name, none⟩,
        ⟨.GetMetricData website_bucket_name, none⟩,
        ⟨.PutPublicAccessBlock takeOfflineInput, none⟩,
        ⟨.SendEmail (sendEmailInput w.now website_bucket_name (.finite 120000000000) false),
          w.sendEmailErr
            (sendEmailInput w.now website_bucket_name (.finite 120000000000) false)⟩] ∧
    "1.200e+11".data <:+:
      (sendEmailInput w.now website_bucket_name (.finite 120000000000) false).Body.data ∧
    "1.000e+11".data <:+:
      (sendEmailInput w.now website_bucket_name (.finite 120000000000) false).Body.data ∧
    (w.sendEmailErr
        (sendEmailInput w.now website_bucket_name (.finite 120000000000) false) = none →
      (handler w).1 = .ret (⟨200, "normal termination"⟩, none)) := by
  have hge : (Float64.finite 120000000000).ge monthly_byte_quota = true := by decide
  refine ⟨rfl, ?_, ?_, ?_, ?_⟩
  · rw [handler_decides w true _ hsess hon (Or.inl rfl) hu, decision_take_offline _ _ hge]
    simp only [afterMetering_putAccessBlockErr, hput]
    exact callsOf_of_trace _ _ _ (by simp [log_trace, afterMetering_trace])
  · refine ⟨("Website http://" ++ website_bucket_name ++ " was taken off line as of \n\n   "
      ++ w.now ++ "\n\nhaving exceeded its quota of\n\n   " ++ "1.000e+11"
      ++ " bytes per month\n\nby serving a total of\n\n   ").data,
      " bytes\n\nthis month.\n".data, ?_⟩
    simp [sendEmailInput, sprintf_e3_quota, sprintf_e3_scenario]
  · refine ⟨("Website http://" ++ website_bucket_name ++ " was taken off line as of \n\n   "
      ++ w.now ++ "\n\nhaving exceeded its quota of\n\n   ").data,
      (" bytes per month\n\nby serving a total of\n\n   " ++ "1.200e+11"
      ++ " bytes\n\nthis month.\n").data, ?_⟩
    simp [sendEmailInput, sprintf_e3_quota, sprintf_e3_scenario]
  · intro hmail
    rw [handler_decides w true _ hsess hon (Or.inl rfl) hu, decision_take_offline _ _ hge]
    simp [hput, hmail, confirmation]

/-- C10 amended, at the over-quota scenario on the 15th of the month. -/
theorem over_quota_scenario_text_witness :
    "1.200e+11".data <:+:
      (sendEmailInput overQuotaWorld.now website_bucket_name
        (.finite 120000000000) false).Body.data ∧
    "1.000e+11".data <:+:
      (sendEmailInput overQuotaWorld.now website_bucket_name
        (.finite 120000000000) false).Body.data ∧
    (handler overQuotaWorld).1 = .ret (⟨200, "normal termination"⟩, none) :=
  ⟨(over_quota_scenario_text overQuotaWorld rfl rfl rfl rfl).2.2.1,
    (over_quota_scenario_text overQuotaWorld rfl rfl rfl rfl).2.2.2.1,
    (over_quota_scenario_text overQuotaWorld rfl rfl rfl rfl).2.2.2.2 rfl⟩

end S3Quota
